import Mathlib

/-!
Verification of the fitness-planner calculation core (`src/test2.py`).

The three pure functions of the core — `validate_inputs`,
`calculate_bmr_tdee`, `generate_plan` — are embedded over exact
rationals (ℚ); Python's `None` results become `Option.none`, and the
exception-driven failure paths of `calculate_bmr_tdee` (which the
source converts to a `(None, None)` return in its `except` clause)
become `Option.none` as well.
-/

/-- Rounding used by Python's `format(x, '.0f')`: nearest integer,
ties to even, modelled on exact rationals. -/
def round_half_to_even (q : ℚ) : ℤ :=
  let f := ⌊q⌋
  let r := q - (f : ℚ)
  if r < 1 / 2 then f
  else if 1 / 2 < r then f + 1
  else if f % 2 = 0 then f else f + 1

/-- Rendering of a numeric value by the `:.0f` format specifier used in
the plan templates. -/
def formatQ0 (q : ℚ) : String :=
  toString (round_half_to_even q)

/-- Python's `str.strip()`: remove whitespace from both ends of the
string (structural model over the character list). -/
def strip (s : String) : String :=
  ⟨(((s.data.dropWhile Char.isWhitespace).reverse).dropWhile Char.isWhitespace).reverse⟩

/-- `validate_inputs` (src/test2.py lines 9-19): first failing rule wins;
`not name.strip()` is true exactly when the stripped name is empty. -/
def validate_inputs (name : String) (age height weight : ℚ) : Option String :=
  if strip name = "" then some ("Please enter your name.")
  else if age < 1 then some ("Please enter a valid age.")
  else if height < 50 then some ("Please enter a valid height (minimum 50 cm).")
  else if weight < 30 then some ("Please enter a valid weight (minimum 30 kg).")
  else none

/-- The Mifflin-St Jeor BMR expression (src/test2.py lines 25-28): the
code tests `gender == 'Male'` and otherwise uses the female formula. -/
def bmr_formula (gender : String) (weight height age : ℚ) : ℚ :=
  if gender = "Male" then 10 * weight + 6.25 * height - 5 * age + 5
  else 10 * weight + 6.25 * height - 5 * age - 161

/-- The activity-multiplier dictionary (src/test2.py lines 31-37), as a
lookup returning `none` for keys outside the table. -/
def activity_multipliers (activity_level : String) : Option ℚ :=
  if activity_level = "Sedentary" then some (1.2 : ℚ)
  else if activity_level = "Lightly Active" then some (1.375 : ℚ)
  else if activity_level = "Moderately Active" then some (1.55 : ℚ)
  else if activity_level = "Very Active" then some (1.725 : ℚ)
  else if activity_level = "Extremely Active" then some (1.9 : ℚ)
  else none

/-- `calculate_bmr_tdee` (src/test2.py lines 21-52).  An unrecognized
activity level raises, and a non-positive bmr/tdee raises; both are
caught and become a `(None, None)` return, modelled as `none`. -/
def calculate_bmr_tdee (weight height age : ℚ) (gender activity_level : String) :
    Option (ℚ × ℚ) :=
  let bmr := bmr_formula gender weight height age
  match activity_multipliers activity_level with
  | none => none
  | some mult =>
      let tdee := bmr * mult
      if bmr ≤ 0 ∨ tdee ≤ 0 then none else some (bmr, tdee)

/-- The macro dictionary built by `generate_plan` in each goal branch
(src/test2.py lines 64-68, 91-95, 120-124). -/
structure Macros where
  protein : ℚ
  carbs : ℚ
  fats : ℚ
deriving DecidableEq, Repr

/-- The `Daily Targets` header shared verbatim by the three macro-goal
diet templates (src/test2.py lines 69-74, 96-101, 125-130). -/
def daily_targets (calories : ℚ) (macros : Macros) : String :=
  "\n            Daily Targets:\n            - Calories: " ++ formatQ0 calories ++
  " kcal\n            - Protein: " ++ formatQ0 macros.protein ++
  "g\n            - Carbs: " ++ formatQ0 macros.carbs ++
  "g\n            - Fats: " ++ formatQ0 macros.fats ++
  "g\n            \n            Focus on:\n"

/-- `generate_plan` (src/test2.py lines 54-163): returns
`(calories, diet_plan, exercise_plan)`. -/
def generate_plan (goals : String) (tdee : Option ℚ) (weight : ℚ) :
    ℚ × String × String :=
  match tdee with
  | none => (0, "Unable to generate diet plan.", "Unable to generate exercise plan.")
  | some tdee =>
      let protein_needs := weight * 2.2
      if goals = "Weight Loss" then
        let calories := max 1200 (tdee - 500)
        let macros : Macros :=
          ⟨protein_needs, (calories * 0.40) / 4, (calories * 0.25) / 9⟩
        (calories,
         daily_targets calories macros ++
           "            - High protein foods (lean meat, fish, eggs)\n            - Fiber-rich vegetables\n            - Complex carbohydrates\n            - Limited processed foods\n            ",
         "\n            Weekly Schedule:\n            - 3-4 days of moderate-intensity cardio (30-45 minutes)\n            - 2-3 days of strength training\n            - Include rest days for recovery\n            ")
      else if goals = "Muscle Gain" then
        let calories := tdee + 500
        let macros : Macros :=
          ⟨protein_needs, (calories * 0.50) / 4, (calories * 0.25) / 9⟩
        (calories,
         daily_targets calories macros ++
           "            - High protein foods every 3-4 hours\n            - Complex carbohydrates\n            - Healthy fats\n            - Pre and post-workout nutrition\n            ",
         "\n            Weekly Schedule:\n            - 4-5 days of strength training\n            - Focus on compound exercises\n            - Progressive overload\n            - 1-2 days of light cardio\n            - Proper rest between sessions\n            ")
      else if goals = "Maintenance" then
        let calories := tdee
        let macros : Macros :=
          ⟨protein_needs, (calories * 0.45) / 4, (calories * 0.30) / 9⟩
        (calories,
         daily_targets calories macros ++
           "            - Balanced macro distribution\n            - Whole, unprocessed foods\n            - Regular meal timing\n            - Adequate hydration\n            ",
         "\n            Weekly Schedule:\n            - 3-4 days of strength training\n            - 2-3 days of moderate cardio\n            - Mix of activities for variety\n            - Active recovery days\n            ")
      else
        let calories := tdee
        (calories,
         "\n            Focus on:\n            - Balanced, nutrient-dense meals\n            - Variety of fruits and vegetables\n            - Whole grains and lean proteins\n            - Mindful eating habits\n            ",
         "\n            Weekly Schedule:\n            - Daily physical activity\n            - Mix of cardio and strength training\n            - Focus on enjoyable activities\n            - Stay consistent with routine\n            ")

/-- The macros dictionary of each `generate_plan` branch, exposed as a
function: `none` for absent tdee and for the General Health branch,
which builds no macros (src/test2.py lines 60-124, 146-161). -/
def plan_macros (goals : String) (tdee : Option ℚ) (weight : ℚ) : Option Macros :=
  match tdee with
  | none => none
  | some tdee =>
      let protein_needs := weight * 2.2
      if goals = "Weight Loss" then
        let calories := max 1200 (tdee - 500)
        some ⟨protein_needs, (calories * 0.40) / 4, (calories * 0.25) / 9⟩
      else if goals = "Muscle Gain" then
        let calories := tdee + 500
        some ⟨protein_needs, (calories * 0.50) / 4, (calories * 0.25) / 9⟩
      else if goals = "Maintenance" then
        let calories := tdee
        some ⟨protein_needs, (calories * 0.45) / 4, (calories * 0.30) / 9⟩
      else none

/-- A successful `calculate_bmr_tdee` result carries exactly the
Mifflin-St Jeor bmr and the bmr scaled by the looked-up multiplier. -/
theorem calculate_bmr_tdee_eq_some {weight height age : ℚ} {gender lvl : String}
    {b t : ℚ} (h : calculate_bmr_tdee weight height age gender lvl = some (b, t)) :
    b = bmr_formula gender weight height age ∧
    ∃ m, activity_multipliers lvl = some m ∧ t = b * m := by
  simp only [calculate_bmr_tdee] at h
  split at h
  · exact absurd h (by simp)
  case _ m hm =>
    split at h
    · exact absurd h (by simp)
    · simp only [Option.some.injEq, Prod.mk.injEq] at h
      exact ⟨h.1.symm, m, hm, by rw [← h.1, ← h.2]⟩

/-- C1 (amended): `calculate_bmr_tdee` computes bmr by Mifflin-St Jeor:
`10·weight + 6.25·height − 5·age + 5` for gender `"Male"` and
`10·weight + 6.25·height − 5·age − 161` for gender `"Female"`; in
particular bmr = 1648.75 for (Male, 70, 175, 30) and bmr = 1345.25 for
(Female, 60, 165, 25). -/
theorem calculate_bmr_tdee_mifflin :
    (∀ (weight height age : ℚ) (lvl : String) (b t : ℚ),
        calculate_bmr_tdee weight height age "Male" lvl = some (b, t) →
        b = 10 * weight + 6.25 * height - 5 * age + 5) ∧
    (∀ (weight height age : ℚ) (lvl : String) (b t : ℚ),
        calculate_bmr_tdee weight height age "Female" lvl = some (b, t) →
        b = 10 * weight + 6.25 * height - 5 * age - 161) ∧
    Option.map Prod.fst (calculate_bmr_tdee 70 175 30 "Male" "Sedentary") =
      some (1648.75 : ℚ) ∧
    Option.map Prod.fst (calculate_bmr_tdee 60 165 25 "Female" "Sedentary") =
      some (1345.25 : ℚ) := by
  refine ⟨?_, ?_, ?_, ?_⟩
  · intro weight height age lvl b t h
    rw [(calculate_bmr_tdee_eq_some h).1]
    simp [bmr_formula]
  · intro weight height age lvl b t h
    rw [(calculate_bmr_tdee_eq_some h).1]
    simp [bmr_formula, String.reduceEq]
  · simp only [calculate_bmr_tdee, bmr_formula, activity_multipliers,
      String.reduceEq, reduceIte]
    norm_num
  · simp only [calculate_bmr_tdee, bmr_formula, activity_multipliers,
      String.reduceEq, reduceIte]
    norm_num

/-- C1 witness: the male branch formula, instantiated at the concrete
input (Male, weight=70, height=175, age=30, Sedentary). -/
theorem calculate_bmr_tdee_mifflin_witness :
    (1648.75 : ℚ) = 10 * 70 + 6.25 * 175 - 5 * 30 + 5 :=
  calculate_bmr_tdee_mifflin.1 70 175 30 "Sedentary" 1648.75 1978.5
    (by simp only [calculate_bmr_tdee, bmr_formula, activity_multipliers,
          String.reduceEq, reduceIte]
        norm_num)

/-- C1 counterexample: the claim's concrete values are wrong: bmr for
(Male, 70, 175, 30) is 1648.75, not 1743.75, and bmr for
(Female, 60, 165, 25) is 1345.25, not 1427.25. -/
theorem calculate_bmr_tdee_spec_values_wrong :
    Option.map Prod.fst (calculate_bmr_tdee 70 175 30 "Male" "Sedentary") =
      some (1648.75 : ℚ) ∧
    (1648.75 : ℚ) ≠ 1743.75 ∧
    Option.map Prod.fst (calculate_bmr_tdee 60 165 25 "Female" "Sedentary") =
      some (1345.25 : ℚ) ∧
    (1345.25 : ℚ) ≠ 1427.25 := by
  refine ⟨?_, by norm_num, ?_, by norm_num⟩ <;>
    · simp only [calculate_bmr_tdee, bmr_formula, activity_multipliers,
        String.reduceEq, reduceIte]
      norm_num

/-- C2: a successful tdee equals the bmr multiplied by the fixed
constant of the requested activity level. -/
theorem calculate_bmr_tdee_multiplier :
    ∀ (weight height age : ℚ) (gender : String) (b t : ℚ),
      (calculate_bmr_tdee weight height age gender "Sedentary" = some (b, t) →
        t = b * 1.2) ∧
      (calculate_bmr_tdee weight height age gender "Lightly Active" = some (b, t) →
        t = b * 1.375) ∧
      (calculate_bmr_tdee weight height age gender "Moderately Active" = some (b, t) →
        t = b * 1.55) ∧
      (calculate_bmr_tdee weight height age gender "Very Active" = some (b, t) →
        t = b * 1.725) ∧
      (calculate_bmr_tdee weight height age gender "Extremely Active" = some (b, t) →
        t = b * 1.9) := by
  intro weight height age gender b t
  refine ⟨?_, ?_, ?_, ?_, ?_⟩ <;>
    · intro h
      obtain ⟨-, m, hm, ht⟩ := calculate_bmr_tdee_eq_some h
      simp only [activity_multipliers, String.reduceEq, reduceIte,
        Option.some.injEq] at hm
      rw [ht, hm]

/-- C2 witness: the Sedentary multiplier, instantiated at
(Male, weight=70, height=175, age=30). -/
theorem calculate_bmr_tdee_multiplier_witness :
    (1978.5 : ℚ) = 1648.75 * 1.2 :=
  (calculate_bmr_tdee_multiplier 70 175 30 "Male" 1648.75 1978.5).1
    (by simp only [calculate_bmr_tdee, bmr_formula, activity_multipliers,
          String.reduceEq, reduceIte]
        norm_num)

/-- C3 counterexample: an input that passes `validate_inputs` (which has
no upper bound on age) on which the defensive non-positive check fires:
(name="Jo", age=120, height=50, weight=30, Female, Sedentary) validates,
yet `calculate_bmr_tdee` hits bmr = -148.5 ≤ 0 and returns the failure
value. -/
theorem invalid_result_branch_reachable :
    validate_inputs "Jo" 120 50 30 = none ∧
    calculate_bmr_tdee 30 50 120 "Female" "Sedentary" = none := by
  constructor
  · decide
  · simp only [calculate_bmr_tdee, bmr_formula, activity_multipliers,
      String.reduceEq, reduceIte]
    norm_num

/-- C3 (amended): for inputs that pass `validate_inputs` and whose age
additionally is at most 90, any gender and any recognized activity
level give a defined result with bmr > 0 and tdee > 0; without such an
age bound the defensive branch is reachable. -/
theorem calculate_bmr_tdee_validated_positive :
    ∀ (name : String) (age height weight : ℚ) (gender lvl : String) (m : ℚ),
      validate_inputs name age height weight = none →
      age ≤ 90 →
      activity_multipliers lvl = some m →
      ∃ b t, calculate_bmr_tdee weight height age gender lvl = some (b, t) ∧
        0 < b ∧ 0 < t := by
  intro name age height weight gender lvl m hv hage hm
  have hbounds : 1 ≤ age ∧ 50 ≤ height ∧ 30 ≤ weight := by
    simp only [validate_inputs] at hv
    split_ifs at hv with h1 h2 h3 h4
    exact ⟨not_lt.mp h2, not_lt.mp h3, not_lt.mp h4⟩
  obtain ⟨h1, h2, h3⟩ := hbounds
  have hmpos : 0 < m := by
    simp only [activity_multipliers] at hm
    split_ifs at hm <;> (rw [← Option.some.inj hm]; norm_num)
  have hb : 0 < bmr_formula gender weight height age := by
    unfold bmr_formula
    split_ifs <;> linarith
  have ht : 0 < bmr_formula gender weight height age * m := mul_pos hb hmpos
  refine ⟨bmr_formula gender weight height age,
    bmr_formula gender weight height age * m, ?_, hb, ht⟩
  simp only [calculate_bmr_tdee, hm]
  rw [if_neg]
  push_neg
  exact ⟨hb, ht⟩

/-- C3 witness: the amended theorem at the boundary input
(name="Jo", age=90, height=50, weight=30, Female, Sedentary). -/
theorem calculate_bmr_tdee_validated_positive_witness :
    ∃ b t, calculate_bmr_tdee 30 50 90 "Female" "Sedentary" = some (b, t) ∧
      0 < b ∧ 0 < t :=
  calculate_bmr_tdee_validated_positive "Jo" 90 50 30 "Female" "Sedentary" 1.2
    (by decide) (by norm_num) rfl

/-- C5: `validate_inputs` checks its four rules in order, first failure
winning, with the exact four message strings, and accepts otherwise. -/
theorem validate_inputs_first_failure :
    ∀ (name : String) (age height weight : ℚ),
      (strip name = "" →
        validate_inputs name age height weight = some ("Please enter your name.")) ∧
      (strip name ≠ "" → age < 1 →
        validate_inputs name age height weight = some ("Please enter a valid age.")) ∧
      (strip name ≠ "" → 1 ≤ age → height < 50 →
        validate_inputs name age height weight =
          some ("Please enter a valid height (minimum 50 cm).")) ∧
      (strip name ≠ "" → 1 ≤ age → 50 ≤ height → weight < 30 →
        validate_inputs name age height weight =
          some ("Please enter a valid weight (minimum 30 kg).")) ∧
      (strip name ≠ "" → 1 ≤ age → 50 ≤ height → 30 ≤ weight →
        validate_inputs name age height weight = none) := by
  intro name age height weight
  refine ⟨?_, ?_, ?_, ?_, ?_⟩
  · intro h1
    simp [validate_inputs, h1]
  · intro h1 h2
    simp [validate_inputs, h1, h2]
  · intro h1 h2 h3
    simp [validate_inputs, h1, not_lt.mpr h2, h3]
  · intro h1 h2 h3 h4
    simp [validate_inputs, h1, not_lt.mpr h2, not_lt.mpr h3, h4]
  · intro h1 h2 h3 h4
    simp [validate_inputs, h1, not_lt.mpr h2, not_lt.mpr h3, not_lt.mpr h4]

/-- C5 witness: the five test vectors of the spec, each discharged
through the corresponding rule of the theorem. -/
theorem validate_inputs_first_failure_witness :
    validate_inputs "" 25 170 70 = some ("Please enter your name.") ∧
    validate_inputs "Jo" 0 170 70 = some ("Please enter a valid age.") ∧
    validate_inputs "Jo" 25 49 70 =
      some ("Please enter a valid height (minimum 50 cm).") ∧
    validate_inputs "Jo" 25 170 29 =
      some ("Please enter a valid weight (minimum 30 kg).") ∧
    validate_inputs "Jo" 25 170 70 = none :=
  ⟨(validate_inputs_first_failure "" 25 170 70).1 (by decide),
   (validate_inputs_first_failure "Jo" 0 170 70).2.1 (by decide) (by norm_num),
   (validate_inputs_first_failure "Jo" 25 49 70).2.2.1 (by decide) (by norm_num)
     (by norm_num),
   (validate_inputs_first_failure "Jo" 25 170 29).2.2.2.1 (by decide) (by norm_num)
     (by norm_num) (by norm_num),
   (validate_inputs_first_failure "Jo" 25 170 70).2.2.2.2 (by decide) (by norm_num)
     (by norm_num) (by norm_num)⟩

/-- C6: with an absent tdee, `generate_plan` returns the fixed degraded
triple for every goal and weight. -/
theorem generate_plan_absent_tdee :
    ∀ (goals : String) (weight : ℚ),
      generate_plan goals none weight =
        (0, "Unable to generate diet plan.", "Unable to generate exercise plan.") := by
  intro goals weight
  rfl

/-- C9: an unrecognized activity level makes `calculate_bmr_tdee` fail
with no partial result. -/
theorem calculate_bmr_tdee_unrecognized_level :
    ∀ (weight height age : ℚ) (gender lvl : String),
      lvl ≠ "Sedentary" → lvl ≠ "Lightly Active" → lvl ≠ "Moderately Active" →
      lvl ≠ "Very Active" → lvl ≠ "Extremely Active" →
      calculate_bmr_tdee weight height age gender lvl = none := by
  intro weight height age gender lvl h1 h2 h3 h4 h5
  have hm : activity_multipliers lvl = none := by
    simp [activity_multipliers, h1, h2, h3, h4, h5]
  simp [calculate_bmr_tdee, hm]

/-- C9 witness: the failure at the unrecognized level "Running". -/
theorem calculate_bmr_tdee_unrecognized_level_witness :
    calculate_bmr_tdee 70 175 30 "Male" "Running" = none :=
  calculate_bmr_tdee_unrecognized_level 70 175 30 "Male" "Running"
    (by decide) (by decide) (by decide) (by decide) (by decide)

/-- C10: `calculate_bmr_tdee` tests gender only against `"Male"`: any
other gender string behaves exactly like `"Female"` and yields the
female formula, with no error from the gender value. -/
theorem calculate_bmr_tdee_gender_fallback :
    ∀ (gender : String) (weight height age : ℚ) (lvl : String),
      gender ≠ "Male" →
      calculate_bmr_tdee weight height age gender lvl =
        calculate_bmr_tdee weight height age "Female" lvl ∧
      (∀ b t, calculate_bmr_tdee weight height age gender lvl = some (b, t) →
        b = 10 * weight + 6.25 * height - 5 * age - 161) := by
  intro gender weight height age lvl hg
  have hbmr : bmr_formula gender weight height age =
      bmr_formula "Female" weight height age := by
    simp [bmr_formula, hg, String.reduceEq]
  constructor
  · simp only [calculate_bmr_tdee, hbmr]
  · intro b t hbt
    rw [(calculate_bmr_tdee_eq_some hbt).1, hbmr]
    simp [bmr_formula, String.reduceEq]

/-- C10 witness: the lowercase string "male" is not "Male" and takes the
female branch. -/
theorem calculate_bmr_tdee_gender_fallback_witness :
    calculate_bmr_tdee 70 175 30 "male" "Sedentary" =
      calculate_bmr_tdee 70 175 30 "Female" "Sedentary" :=
  (calculate_bmr_tdee_gender_fallback "male" 70 175 30 "Sedentary" (by decide)).1

/-- C4: the target calories of `generate_plan` per goal: Weight Loss is
`max 1200 (tdee − 500)` (so 1200 at tdee=1000 and 2000 at tdee=2500),
Muscle Gain is `tdee + 500` with no floor or ceiling, Maintenance and
General Health are exactly `tdee`. -/
theorem generate_plan_target_calories :
    ∀ (tdee weight : ℚ),
      (generate_plan "Weight Loss" (some tdee) weight).1 = max 1200 (tdee - 500) ∧
      (generate_plan "Weight Loss" (some (1000 : ℚ)) weight).1 = 1200 ∧
      (generate_plan "Weight Loss" (some (2500 : ℚ)) weight).1 = 2000 ∧
      (generate_plan "Muscle Gain" (some tdee) weight).1 = tdee + 500 ∧
      (generate_plan "Maintenance" (some tdee) weight).1 = tdee ∧
      (generate_plan "General Health" (some tdee) weight).1 = tdee := by
  intro tdee weight
  refine ⟨?_, ?_, ?_, ?_, ?_, ?_⟩ <;>
    simp only [generate_plan, String.reduceEq, reduceIte] <;>
    norm_num [max_def]

/-- C7: a goal string outside the four recognized categories takes the
General Health branch: same output as goal "General Health", calories
equal to tdee, and no error. -/
theorem generate_plan_unrecognized_goal :
    ∀ (goals : String) (tdee weight : ℚ),
      goals ≠ "Weight Loss" → goals ≠ "Muscle Gain" → goals ≠ "Maintenance" →
      goals ≠ "General Health" →
      generate_plan goals (some tdee) weight =
        generate_plan "General Health" (some tdee) weight ∧
      (generate_plan goals (some tdee) weight).1 = tdee := by
  intro goals tdee weight h1 h2 h3 h4
  have hg : generate_plan goals (some tdee) weight =
      generate_plan "General Health" (some tdee) weight := by
    simp [generate_plan, String.reduceEq, h1, h2, h3]
  refine ⟨hg, ?_⟩
  rw [hg]
  simp only [generate_plan, String.reduceEq, reduceIte]

/-- C7 witness: the unrecognized goal "Toning" at tdee=2000, weight=70
behaves as General Health. -/
theorem generate_plan_unrecognized_goal_witness :
    generate_plan "Toning" (some 2000) 70 =
      generate_plan "General Health" (some 2000) 70 :=
  (generate_plan_unrecognized_goal "Toning" 2000 70
    (by decide) (by decide) (by decide) (by decide)).1

/-- C8: the macro grams of the three macro goals: protein is always
`weight × 2.2`; carbs are `calories × fraction / 4` with fractions
0.40, 0.50, 0.45; fats are `calories × fraction / 9` with fractions
0.25, 0.25, 0.30, where calories is the target returned by
`generate_plan` for that goal. -/
theorem plan_macros_split :
    ∀ (tdee weight : ℚ),
      plan_macros "Weight Loss" (some tdee) weight =
        some ⟨weight * 2.2,
          ((generate_plan "Weight Loss" (some tdee) weight).1 * 0.40) / 4,
          ((generate_plan "Weight Loss" (some tdee) weight).1 * 0.25) / 9⟩ ∧
      plan_macros "Muscle Gain" (some tdee) weight =
        some ⟨weight * 2.2,
          ((generate_plan "Muscle Gain" (some tdee) weight).1 * 0.50) / 4,
          ((generate_plan "Muscle Gain" (some tdee) weight).1 * 0.25) / 9⟩ ∧
      plan_macros "Maintenance" (some tdee) weight =
        some ⟨weight * 2.2,
          ((generate_plan "Maintenance" (some tdee) weight).1 * 0.45) / 4,
          ((generate_plan "Maintenance" (some tdee) weight).1 * 0.30) / 9⟩ := by
  intro tdee weight
  refine ⟨?_, ?_, ?_⟩ <;> rfl
